import Mathlib

/-!
Verification of the x728ups UPS supervisor (x728ups.py, mqtt.py).

We shallow-embed the decision logic of the program:
* `monitor_shutdown`'s pulse classifier (GPIO 5) as a sampled loop over
  discrete millisecond time, with the 20 ms fine-poll grid of the source;
* `check_power` / `check_conditions` / `monitor_pld` (the power supervisor)
  as a step function on an explicit state record, driven per cycle by the
  sampled inputs (UPS probe result, PLD line, voltage, capacity, wall time);
* `request_shutdown` as a program in a tiny command language with an
  executable small-step interpreter, making "never returns" provable;
* the MQTT connection flag (mqtt.py) and the publisher loop's reconnect
  cadence (`main`) as pure transition functions.

Times are rationals (Python floats are modelled as exact rationals; the one
place where floating-point range matters, `sys.float_info.max`, is the exact
value of the largest finite IEEE-754 double, `2^1024 - 2^971`).
-/

namespace X728Ups

/-! ## Definitions -/

/-! ### Configuration constants (x728ups.py lines 95-118) -/

/-- `SHUTDOWN_BATTERY_CAPACITY = 50` — capacity falls below this percentage. -/
def SHUTDOWN_BATTERY_CAPACITY : ℚ := 50

/-- `SHUTDOWN_BATTERY_VOLTAGE = 3.6` — voltage falls below this value. -/
def SHUTDOWN_BATTERY_VOLTAGE : ℚ := 36 / 10

/-- `SHUTDOWN_SECONDS = 20` — power-fail for longer than this duration. -/
def SHUTDOWN_SECONDS : ℚ := 20

/-- `DATA_SEND_PERIOD = 60` — cycles between publishing battery data. -/
def DATA_SEND_PERIOD : ℕ := 60

/-- `MQTT_RETRY_PERIOD = 600` — loop iterations between MQTT reconnects. -/
def MQTT_RETRY_PERIOD : ℕ := 600

/-- `SYSTEM_SHUTDOWN_REQUEST_DURATION = 4` — seconds of GPIO 13 pulse. -/
def SYSTEM_SHUTDOWN_REQUEST_DURATION : ℚ := 4

/-- `REBOOT_PULSE_MINIMUM = 200` milliseconds. -/
def REBOOT_PULSE_MINIMUM : ℕ := 200

/-- `REBOOT_PULSE_MAXIMUM = 600` milliseconds. -/
def REBOOT_PULSE_MAXIMUM : ℕ := 600

/-- `GPIO_X728_SYSTEM = 13` — held high to initiate system shutdown. -/
def GPIO_X728_SYSTEM : ℕ := 13

/-- `sys.float_info.max`: the largest finite IEEE-754 double, exactly. -/
def FLOAT_MAX : ℚ := 2 ^ 1024 - 2 ^ 971

/-! ### Pulse classifier (`monitor_shutdown`, x728ups.py lines 227-247)

The routine polls GPIO 5.  On a rising edge it records `pulse_start` and then
loops: `sleep(0.02)`, then if `now - pulse_start > REBOOT_PULSE_MAXIMUM` it
performs the (terminal) shutdown; the loop re-checks the line before each
iteration.  After the line falls it performs the (terminal) reboot when
`now - pulse_start > REBOOT_PULSE_MINIMUM`, else no trigger.

We model a pulse of continuous-high duration `d` ms starting at the rising
edge: the line reads high at sample time `t` (ms since the rising edge) iff
`t < d`.  Sample times advance on the ideal 20 ms grid of the `sleep(0.02)`
calls.  `fuel` bounds the recursion structurally; `classifyPulse` supplies
more fuel (40) than the loop can ever consume (31 iterations reach the
terminal shutdown at elapsed time 620 ms). -/

/-- The outcome of one pulse on the shutdown-request line. -/
inductive Trigger : Type
  | none
  | reboot
  | shutdown
deriving DecidableEq, Repr

/-- The inner `while GPIO.input(GPIO_X728_SHUTDOWN) == 1` loop of
`monitor_shutdown`, entered at sample time `t` after the rising edge.
Loop body: advance 20 ms, then shutdown if elapsed `> REBOOT_PULSE_MAXIMUM`;
on exit (line low), reboot iff elapsed `> REBOOT_PULSE_MINIMUM`. -/
def pulseLoop (d : ℕ) : ℕ → ℕ → Trigger
  | 0, _ => Trigger.none
  | fuel + 1, t =>
    if t < d then
      -- line still high at sample time t: sleep(0.02) then check elapsed
      if REBOOT_PULSE_MAXIMUM < t + 20 then Trigger.shutdown
      else pulseLoop d fuel (t + 20)
    else
      -- falling edge observed at sample time t
      if REBOOT_PULSE_MINIMUM < t then Trigger.reboot else Trigger.none

/-- Classification of a single pulse of continuous-high duration `d` ms,
timed from its rising edge (`pulse_start`, sample time 0). -/
def classifyPulse (d : ℕ) : Trigger := pulseLoop d 40 0

/-! ### Power supervisor (`monitor_pld`, x728ups.py lines 250-315)

`monitor_pld` keeps `last_ups_detected`, `last_pld`, `wait_start` (the power
watermark, initialised to `sys.float_info.max`) and `count` across 1-second
cycles.  Each cycle probes the UPS (`detect_ups`), and when present reads the
PLD line, runs `check_power`, reads voltage/capacity, runs
`check_conditions` (whose `request_shutdown` calls are terminal), and every
`DATA_SEND_PERIOD`-th present cycle emits telemetry via `log_data`. -/

/-- Events published to `<root>/event` by `log_event` (the free-text reasons,
abstracted to their identity). -/
inductive UpsEvent : Type
  | upsDetected        -- "UPS detected"
  | upsNotDetected     -- "UPS not detected"
  | powerLoss          -- "Power loss detected - shutting down in .. seconds"
  | powerRestored      -- "Power restored"
deriving DecidableEq, Repr

/-- Which of the three `check_conditions` triggers invoked
`request_shutdown` (the call is terminal, so at most the first fires). -/
inductive ShutdownCause : Type
  | outage
  | lowVoltage
  | lowCapacity
deriving DecidableEq, Repr

/-- Telemetry messages published by `log_data`: `<root>/voltage` then
`<root>/capacity`, as two separate events. -/
inductive TelemetryMsg : Type
  | voltage (v : ℚ)
  | capacity (c : ℚ)
deriving DecidableEq, Repr

/-- `log_data(log_queue, voltage, capacity)`: enqueue the voltage event then
the capacity event. -/
def log_data (voltage capacity : ℚ) : List TelemetryMsg :=
  [TelemetryMsg.voltage voltage, TelemetryMsg.capacity capacity]

/-- `check_power(log_queue, pld, ups_pld, wait_start)` with the call's
`time.time()` passed explicitly as `now`.  `pld` is this cycle's reading,
`ups_pld` the previous one.  Returns the events logged and the returned
`wait_start` ("the time when the power was last good"). -/
def check_power (pld ups_pld : Bool) (wait_start now : ℚ) :
    List UpsEvent × ℚ :=
  if pld then
    ((if ¬ups_pld then [UpsEvent.powerLoss] else []), wait_start)
  else
    ((if ups_pld then [UpsEvent.powerRestored] else []), now)

/-- `check_conditions(log_queue, ups_pld, wait_start, voltage, capacity)`
with `time.time()` passed explicitly as `now`.  The three `request_shutdown`
calls are terminal, so the result is the first trigger whose condition
holds, if any. -/
def check_conditions (ups_pld : Bool) (wait_start now voltage capacity : ℚ) :
    Option ShutdownCause :=
  if ups_pld ∧ now - wait_start > SHUTDOWN_SECONDS then
    some ShutdownCause.outage
  else if voltage < SHUTDOWN_BATTERY_VOLTAGE then
    some ShutdownCause.lowVoltage
  else if capacity < SHUTDOWN_BATTERY_CAPACITY then
    some ShutdownCause.lowCapacity
  else
    none

/-- `detect_ups(bus)`: `bus.read_byte` either succeeds (`some ()`) or raises
(`none`); any exception is caught and reported as "not detected". -/
def detect_ups (probe : Option Unit) : Bool :=
  probe.isSome

/-- The per-cycle inputs sampled by `monitor_pld`: the I2C probe outcome,
the PLD line, the two telemetry register reads, and the wall-clock time of
the cycle. -/
structure PldInput : Type where
  probe : Option Unit
  pld : Bool
  voltage : ℚ
  capacity : ℚ
  now : ℚ
deriving DecidableEq, Repr

/-- The loop-carried state of `monitor_pld`. -/
structure PldState : Type where
  last_ups_detected : Bool
  last_pld : Bool
  wait_start : ℚ
  count : ℕ
deriving DecidableEq, Repr

/-- `monitor_pld`'s state before the first cycle (x728ups.py lines 281-285). -/
def initialPldState : PldState :=
  { last_ups_detected := false
    last_pld := false
    wait_start := FLOAT_MAX
    count := 0 }

/-- What one cycle of `monitor_pld` produces. -/
structure PldOutput : Type where
  events : List UpsEvent
  telemetry : List TelemetryMsg
  shutdown : Option ShutdownCause
deriving DecidableEq, Repr

/-- One cycle of the `while True` loop of `monitor_pld`.  When
`check_conditions` fires, `request_shutdown` never returns: the statements
after it (telemetry, `count += 1`, `last_ups_detected = ups_detected`) are
not reached, which the `some`-branch mirrors by leaving them out. -/
def monitor_pld_step (s : PldState) (i : PldInput) : PldState × PldOutput :=
  let ups_detected := detect_ups i.probe
  if ups_detected then
    let detectEvents :=
      if ¬s.last_ups_detected then [UpsEvent.upsDetected] else []
    let cp := check_power i.pld s.last_pld s.wait_start i.now
    let ws := cp.2
    match check_conditions i.pld ws i.now i.voltage i.capacity with
    | some cause =>
        ({ s with last_pld := i.pld, wait_start := ws },
         { events := detectEvents ++ cp.1
           telemetry := []
           shutdown := some cause })
    | none =>
        ({ last_ups_detected := true
           last_pld := i.pld
           wait_start := ws
           count := s.count + 1 },
         { events := detectEvents ++ cp.1
           telemetry :=
             if s.count % DATA_SEND_PERIOD = 0 then
               log_data i.voltage i.capacity
             else []
           shutdown := none })
  else
    ({ s with last_ups_detected := false },
     { events := if s.last_ups_detected then [UpsEvent.upsNotDetected] else []
       telemetry := []
       shutdown := none })

/-- Run `monitor_pld` over a list of per-cycle inputs.  A cycle whose
`check_conditions` fired is terminal: the process is shutting down and no
further cycle executes. -/
def runPld (s : PldState) : List PldInput → List PldOutput
  | [] => []
  | i :: rest =>
      if (monitor_pld_step s i).2.shutdown.isSome then
        [(monitor_pld_step s i).2]
      else
        (monitor_pld_step s i).2 :: runPld (monitor_pld_step s i).1 rest

/-- Number of UPS-present cycles among the given inputs. -/
def presentCount (inputs : List PldInput) : ℕ :=
  inputs.countP (fun i => detect_ups i.probe)

/-- The 22-cycle outage scenario of the spec: one cycle on good power at
time 1000 s, then 21 consecutive 1-second cycles with power-loss active and
healthy battery readings. -/
def outageScenario : List PldInput :=
  { probe := some (), pld := false, voltage := 4, capacity := 100,
    now := 1000 } ::
  (List.range 21).map (fun k =>
    { probe := some (), pld := true, voltage := 4, capacity := 100,
      now := 1000 + ((k : ℚ) + 1) })

/-! ### `request_shutdown` (x728ups.py lines 169-187)

The routine executes straight-line statements and then `while True: pass`.
We embed it as a program in a small command language with an executable
small-step interpreter, so that "holds the line high for exactly 4 seconds"
and "never returns control to its caller" are provable statements. -/

/-- The primitive statements `request_shutdown` executes. -/
inductive Cmd : Type
  | output (pin : ℕ) (level : Bool)   -- GPIO.output(pin, level)
  | sleep (seconds : ℚ)               -- time.sleep(seconds)
  | spin                              -- `while True: pass`
deriving DecidableEq, Repr

/-- The body of `request_shutdown`: drive GPIO 13 high, sleep
`SYSTEM_SHUTDOWN_REQUEST_DURATION` (4 s), drive it low, loop forever. -/
def request_shutdown_prog : List Cmd :=
  [Cmd.output GPIO_X728_SYSTEM true,
   Cmd.sleep SYSTEM_SHUTDOWN_REQUEST_DURATION,
   Cmd.output GPIO_X728_SYSTEM false,
   Cmd.spin]

/-- Interpreter state: the current wall-clock time and the ordered record of
GPIO writes `(time, pin, level)` performed so far. -/
structure ExecState : Type where
  time : ℚ
  writes : List (ℚ × ℕ × Bool)
deriving DecidableEq, Repr

/-- One small step.  `none` means the program has run out of statements and
returns control to its caller; `Cmd.spin` steps to itself without effect. -/
def stepCmd : List Cmd × ExecState → Option (List Cmd × ExecState)
  | ([], _) => none
  | (Cmd.output pin level :: rest, s) =>
      some (rest, { s with writes := s.writes ++ [(s.time, pin, level)] })
  | (Cmd.sleep d :: rest, s) =>
      some (rest, { s with time := s.time + d })
  | (Cmd.spin :: rest, s) =>
      some (Cmd.spin :: rest, s)

/-- Run `n` small steps; `none` means the program returned to its caller
within `n` steps. -/
def stepN : ℕ → List Cmd × ExecState → Option (List Cmd × ExecState)
  | 0, c => some c
  | n + 1, c => (stepCmd c).bind (stepN n)

/-! ### MQTT connection flag and reconnect cadence (mqtt.py, `main`)

mqtt.py keeps a module-global `connected` flag, initially `0` (falsy, i.e.
Disconnected).  `on_connect` sets it `True` only for result code 0;
`on_disconnect` sets it `False` unconditionally.  `attempt_mqtt_reconnect`
only reads the flag: it calls `client.reconnect()` iff `not connected`, and
a `ConnectionRefusedError` from that call is caught and merely logged — the
handler does not write the flag.

`main`'s publisher loop increments `count` once per iteration (before
blocking on the queue) and calls `attempt_mqtt_reconnect` exactly when
`count % MQTT_RETRY_PERIOD == MQTT_RETRY_PERIOD - 1`. -/

/-- The events that may write the `connected` flag: the connect
acknowledgement callback (with its result code) and the disconnect
acknowledgement callback. -/
inductive ConnEvent : Type
  | connectAck (rc : ℕ)
  | disconnectAck (rc : ℕ)
deriving DecidableEq, Repr

/-- `connected = 0`: the flag starts falsy, i.e. Disconnected. -/
def initial_connected : Bool := false

/-- `on_connect(client, userdata, flags, rc)`: set the flag only on result
code 0; a failed connection acknowledgement leaves it unchanged. -/
def on_connect (connected : Bool) (rc : ℕ) : Bool :=
  if rc = 0 then true else connected

/-- `on_disconnect(client, userdata, rc)`: clear the flag unconditionally. -/
def on_disconnect (_connected : Bool) (_rc : ℕ) : Bool :=
  false

/-- The flag after one acknowledgement callback. -/
def applyConnEvent (connected : Bool) : ConnEvent → Bool
  | ConnEvent.connectAck rc => on_connect connected rc
  | ConnEvent.disconnectAck rc => on_disconnect connected rc

/-- `attempt_mqtt_reconnect(mqtt_client)`: returns whether
`mqtt_client.reconnect()` is invoked.  The function never writes the
`connected` flag (a refused connection is caught and logged only). -/
def attempt_mqtt_reconnect (connected : Bool) : Bool :=
  !connected

/-- The `connected` flag after a reconnect attempt whose
`client.reconnect()` call raised `ConnectionRefusedError`: the handler only
logs, so the flag is unchanged. -/
def flag_after_failed_reconnect (connected : Bool) : Bool :=
  connected

/-- Whether `main`'s publisher loop calls `attempt_mqtt_reconnect` on the
iteration with counter value `count` (`count` is incremented at the top of
the loop, so it takes the values 1, 2, 3, …). -/
def reconnect_due (count : ℕ) : Bool :=
  count % MQTT_RETRY_PERIOD == MQTT_RETRY_PERIOD - 1

/-- Whether iteration `count` of the publisher loop actually invokes
`client.reconnect()`, given the `connected` flag it observes. -/
def reconnect_attempted (count : ℕ) (connected : Bool) : Bool :=
  reconnect_due count && attempt_mqtt_reconnect connected

/-! ## Theorems -/

/-! ### C1 — pulse classification -/

/-- Short pulses: if the line is high for at most 200 ms, the loop exits on a
grid point `≤ 200` and the reboot test `elapsed > 200` fails. -/
theorem pulseLoop_none (d : ℕ) (hd : d ≤ 200) :
    ∀ fuel t, t % 20 = 0 → t ≤ 200 → pulseLoop d fuel t = Trigger.none := by
  intro fuel
  induction fuel with
  | zero => intro t _ _; rfl
  | succ n ih =>
      intro t hgrid ht
      rw [pulseLoop]
      by_cases hlt : t < d
      · rw [if_pos hlt]
        have h6 : ¬ (REBOOT_PULSE_MAXIMUM < t + 20) := by
          simp only [REBOOT_PULSE_MAXIMUM]; omega
        rw [if_neg h6]
        exact ih (t + 20) (by omega) (by omega)
      · rw [if_neg hlt]
        have h2 : ¬ (REBOOT_PULSE_MINIMUM < t) := by
          simp only [REBOOT_PULSE_MINIMUM]; omega
        rw [if_neg h2]

/-- Medium pulses: if the line is high for more than 200 ms and at most
600 ms, the loop exits at the first grid point `≥ d`, which is `> 200` and
`≤ 600`, and the reboot trigger fires. -/
theorem pulseLoop_reboot (d : ℕ) (h1 : 200 < d) (h2 : d ≤ 600) :
    ∀ fuel t, t % 20 = 0 → t ≤ 600 → (t < d ∨ 200 < t) → 620 ≤ t + 20 * fuel →
      pulseLoop d fuel t = Trigger.reboot := by
  intro fuel
  induction fuel with
  | zero => intro t _ ht _ hfuel; omega
  | succ n ih =>
      intro t hgrid ht hor hfuel
      rw [pulseLoop]
      by_cases hlt : t < d
      · rw [if_pos hlt]
        have h6 : ¬ (REBOOT_PULSE_MAXIMUM < t + 20) := by
          simp only [REBOOT_PULSE_MAXIMUM]; omega
        rw [if_neg h6]
        exact ih (t + 20) (by omega) (by omega) (by omega) (by omega)
      · rw [if_neg hlt]
        have hgt : REBOOT_PULSE_MINIMUM < t := by
          simp only [REBOOT_PULSE_MINIMUM]; omega
        rw [if_pos hgt]

/-- Long pulses: if the line is high for more than 600 ms, it is still high
at every grid point through 600 ms and the loop fires the shutdown trigger
at elapsed time 620 ms, before any falling edge can be observed. -/
theorem pulseLoop_shutdown (d : ℕ) (hd : 600 < d) :
    ∀ fuel t, t % 20 = 0 → t ≤ 600 → 620 ≤ t + 20 * fuel →
      pulseLoop d fuel t = Trigger.shutdown := by
  intro fuel
  induction fuel with
  | zero => intro t _ ht hfuel; omega
  | succ n ih =>
      intro t hgrid ht hfuel
      rw [pulseLoop]
      rw [if_pos (by omega : t < d)]
      by_cases h6 : REBOOT_PULSE_MAXIMUM < t + 20
      · rw [if_pos h6]
      · rw [if_neg h6]
        have h6' : t + 20 ≤ 600 := by
          simp only [REBOOT_PULSE_MAXIMUM] at h6; omega
        exact ih (t + 20) (by omega) h6' (by omega)

/-- C1 (amended): for a pulse of continuous-high duration `d` ms sampled on
the monitor's 20 ms grid: if `d ≤ 200` no trigger is invoked and the monitor
returns to IDLE; if `200 < d ≤ 600` (the line falls), exactly one reboot
trigger is invoked; if `d > 600`, exactly one shutdown trigger is invoked
(even while the line is still high) and no reboot evaluation occurs.  The
source compares with strict `>` against both bounds, so the boundary
durations 200 ms and 600 ms fall in the lower class, not the upper. -/
theorem pulse_classification (d : ℕ) :
    (d ≤ REBOOT_PULSE_MINIMUM → classifyPulse d = Trigger.none) ∧
    (REBOOT_PULSE_MINIMUM < d → d ≤ REBOOT_PULSE_MAXIMUM →
      classifyPulse d = Trigger.reboot) ∧
    (REBOOT_PULSE_MAXIMUM < d → classifyPulse d = Trigger.shutdown) := by
  simp only [REBOOT_PULSE_MINIMUM, REBOOT_PULSE_MAXIMUM, classifyPulse]
  refine ⟨fun h => ?_, fun h1 h2 => ?_, fun h => ?_⟩
  · exact pulseLoop_none d h 40 0 (by omega) (by omega)
  · exact pulseLoop_reboot d h1 h2 40 0 (by omega) (by omega)
      (Or.inl (by omega)) (by omega)
  · exact pulseLoop_shutdown d h 40 0 (by omega) (by omega) (by omega)

/-- C1 witness: concrete durations in each class, classified through
`pulse_classification`. -/
theorem pulse_classification_witness :
    classifyPulse 100 = Trigger.none ∧ classifyPulse 300 = Trigger.reboot ∧
    classifyPulse 650 = Trigger.shutdown :=
  ⟨(pulse_classification 100).1 (by decide),
   (pulse_classification 300).2.1 (by decide) (by decide),
   (pulse_classification 650).2.2 (by decide)⟩

/-- C1 counterexample: a pulse of exactly 600 ms yields the reboot trigger,
not the shutdown trigger the claim requires for `d ≥ 600`; likewise a pulse
of exactly 200 ms yields no trigger, not the reboot the claim requires for
`200 ≤ d < 600`. -/
theorem pulse_classification_cex :
    classifyPulse 600 = Trigger.reboot ∧ classifyPulse 600 ≠ Trigger.shutdown ∧
    classifyPulse 200 = Trigger.none ∧ classifyPulse 200 ≠ Trigger.reboot := by
  decide

/-! ### C2 — the power watermark -/

/-- C2 (amended): in every supervisor cycle, `check_power` sets the power
watermark (`wait_start`) to the current time iff power-loss is inactive in
that cycle — on active→inactive transitions and on steady-good cycles alike
— and leaves it unchanged whenever power-loss is active (good→bad
transitions and steady-bad cycles); whenever the current time is at least
the previous watermark, the watermark does not move backward. -/
theorem watermark_update (pld ups_pld : Bool) (wait_start now : ℚ) :
    (check_power pld ups_pld wait_start now).2 =
      (if pld then wait_start else now) ∧
    (wait_start ≤ now →
      wait_start ≤ (check_power pld ups_pld wait_start now).2) := by
  refine ⟨?_, ?_⟩
  · cases pld <;> simp [check_power]
  · intro h
    cases pld
    · simpa [check_power] using h
    · simp [check_power]

/-- C2 witness: a concrete cycle with power good updates the watermark to
the current time and does not move it backward. -/
theorem watermark_update_witness :
    (check_power false false 5 7).2 = 7 ∧
    (5 : ℚ) ≤ (check_power false false 5 7).2 :=
  ⟨by simpa using (watermark_update false false 5 7).1,
   (watermark_update false false 5 7).2 (by norm_num)⟩

/-- C2 counterexample: a steady-good cycle (`pld = false` now and on the
previous cycle, so power-loss does *not* transition from active to inactive)
still updates the watermark from 5 to the current time 7, contradicting
"updated if and only if power-loss transitions from active to inactive" and
"never updated on steady states". -/
theorem watermark_update_cex :
    (check_power false false 5 7).2 = 7 ∧
    (check_power false false 5 7).2 ≠ 5 := by
  decide

/-! ### C3 — the outage trigger -/

/-- `check_conditions` reports the outage cause iff power-loss is active and
the outage age strictly exceeds `SHUTDOWN_SECONDS`. -/
theorem check_conditions_eq_outage_iff (ups_pld : Bool)
    (wait_start now voltage capacity : ℚ) :
    check_conditions ups_pld wait_start now voltage capacity =
        some ShutdownCause.outage ↔
      ups_pld = true ∧ now - wait_start > SHUTDOWN_SECONDS := by
  unfold check_conditions
  split_ifs with h1 h2 h3 <;> simp_all

/-- C3: with the UPS present, the outage trigger fires iff power-loss is
active this cycle and `now - wait_start` exceeds `SHUTDOWN_SECONDS` (20 s);
and in the concrete scenario of 21 consecutive power-loss cycles after good
power, no shutdown fires on cycles 1..20 and the outage shutdown fires
exactly at cycle 21 (which terminates the run). -/
theorem outage_shutdown_trigger :
    (∀ (ups_pld : Bool) (wait_start now voltage capacity : ℚ),
        check_conditions ups_pld wait_start now voltage capacity =
            some ShutdownCause.outage ↔
          ups_pld = true ∧ now - wait_start > SHUTDOWN_SECONDS) ∧
    (runPld initialPldState outageScenario).map PldOutput.shutdown =
      List.replicate 21 none ++ [some ShutdownCause.outage] := by
  refine ⟨check_conditions_eq_outage_iff, ?_⟩
  norm_num [outageScenario, List.range_succ, runPld, monitor_pld_step,
    check_power, check_conditions, detect_ups, log_data, initialPldState,
    DATA_SEND_PERIOD, SHUTDOWN_SECONDS, SHUTDOWN_BATTERY_VOLTAGE,
    SHUTDOWN_BATTERY_CAPACITY, List.replicate]

/-! ### C4 — the battery triggers -/

/-- C4: with the UPS present, whenever voltage is below
`SHUTDOWN_BATTERY_VOLTAGE` (3.6 V) or capacity is below
`SHUTDOWN_BATTERY_CAPACITY` (50 %), that cycle's `check_conditions` invokes
the shutdown request, for every power-loss state, outage-timer value and
value of the other battery reading; and unless preempted by an earlier
(terminal) trigger, the specific trigger is the low-voltage resp.
low-capacity one. -/
theorem battery_triggers (ups_pld : Bool)
    (wait_start now voltage capacity : ℚ) :
    (voltage < SHUTDOWN_BATTERY_VOLTAGE →
      (check_conditions ups_pld wait_start now voltage capacity).isSome =
        true) ∧
    (capacity < SHUTDOWN_BATTERY_CAPACITY →
      (check_conditions ups_pld wait_start now voltage capacity).isSome =
        true) ∧
    (¬(ups_pld = true ∧ now - wait_start > SHUTDOWN_SECONDS) →
      voltage < SHUTDOWN_BATTERY_VOLTAGE →
      check_conditions ups_pld wait_start now voltage capacity =
        some ShutdownCause.lowVoltage) ∧
    (¬(ups_pld = true ∧ now - wait_start > SHUTDOWN_SECONDS) →
      ¬(voltage < SHUTDOWN_BATTERY_VOLTAGE) →
      capacity < SHUTDOWN_BATTERY_CAPACITY →
      check_conditions ups_pld wait_start now voltage capacity =
        some ShutdownCause.lowCapacity) := by
  unfold check_conditions
  split_ifs with h1 h2 h3 <;> simp_all

/-- C4 witness: the spec's scenario — voltage 3.5 V, threshold 3.6 V,
power-loss inactive — triggers an immediate shutdown request, specifically
the low-voltage trigger. -/
theorem battery_triggers_witness :
    (check_conditions false 0 0 (35 / 10) 100).isSome = true ∧
    check_conditions false 0 0 (35 / 10) 100 =
      some ShutdownCause.lowVoltage :=
  ⟨(battery_triggers false 0 0 (35 / 10) 100).1
      (by norm_num [SHUTDOWN_BATTERY_VOLTAGE]),
   (battery_triggers false 0 0 (35 / 10) 100).2.2.1 (by simp)
      (by norm_num [SHUTDOWN_BATTERY_VOLTAGE])⟩

/-! ### C5 — `request_shutdown` -/

/-- `while True: pass` is a fixed point of the interpreter. -/
theorem stepN_spin (s : ExecState) :
    ∀ n, stepN n ([Cmd.spin], s) = some ([Cmd.spin], s) := by
  intro n
  induction n with
  | zero => rfl
  | succ m ih => simpa [stepN, stepCmd] using ih

/-- C5: started at any time `t0`, `request_shutdown` (a) never returns
control to its caller, however many steps are executed, and (b) after its
three effectful statements its complete write record is: GPIO 13 driven
high at `t0` and driven low at `t0 + 4` — the line is held high for exactly
`SYSTEM_SHUTDOWN_REQUEST_DURATION = 4` seconds and then released, after
which the routine spins forever. -/
theorem request_shutdown_behavior (t0 : ℚ) (n : ℕ) :
    (stepN n (request_shutdown_prog, { time := t0, writes := [] })).isSome =
      true ∧
    (3 ≤ n →
      stepN n (request_shutdown_prog, { time := t0, writes := [] }) =
        some ([Cmd.spin],
          { time := t0 + SYSTEM_SHUTDOWN_REQUEST_DURATION
            writes := [(t0, GPIO_X728_SYSTEM, true),
                       (t0 + SYSTEM_SHUTDOWN_REQUEST_DURATION,
                        GPIO_X728_SYSTEM, false)] })) := by
  have h3 : ∀ m, stepN (m + 3) (request_shutdown_prog,
      { time := t0, writes := [] }) =
      some ([Cmd.spin],
        { time := t0 + SYSTEM_SHUTDOWN_REQUEST_DURATION
          writes := [(t0, GPIO_X728_SYSTEM, true),
                     (t0 + SYSTEM_SHUTDOWN_REQUEST_DURATION,
                      GPIO_X728_SYSTEM, false)] }) := by
    intro m
    have : stepN (m + 3) (request_shutdown_prog,
        { time := t0, writes := [] }) =
        stepN m ([Cmd.spin],
          { time := t0 + SYSTEM_SHUTDOWN_REQUEST_DURATION
            writes := [(t0, GPIO_X728_SYSTEM, true),
                       (t0 + SYSTEM_SHUTDOWN_REQUEST_DURATION,
                        GPIO_X728_SYSTEM, false)] }) := by
      simp [request_shutdown_prog, stepN, stepCmd, Nat.add_comm]
    rw [this, stepN_spin]
  constructor
  · match n with
    | 0 | 1 | 2 => rfl
    | m + 3 => rw [h3 m]; rfl
  · intro hn
    match n, hn with
    | m + 3, _ => exact h3 m

/-- C5 witness: five steps from time 0 leave the routine spinning with the
line having been high exactly on `[0, 4)`, and still not returned. -/
theorem request_shutdown_behavior_witness :
    (stepN 5 (request_shutdown_prog, { time := 0, writes := [] })).isSome =
      true ∧
    stepN 5 (request_shutdown_prog, { time := 0, writes := [] }) =
      some ([Cmd.spin],
        { time := 0 + SYSTEM_SHUTDOWN_REQUEST_DURATION
          writes := [(0, GPIO_X728_SYSTEM, true),
                     (0 + SYSTEM_SHUTDOWN_REQUEST_DURATION,
                      GPIO_X728_SYSTEM, false)] }) :=
  ⟨(request_shutdown_behavior 0 5).1,
   (request_shutdown_behavior 0 5).2 (by norm_num)⟩

/-! ### C6 — telemetry cadence -/

/-- A cycle with the UPS absent: presence bookkeeping only. -/
theorem monitor_pld_step_absent (s : PldState) (i : PldInput)
    (h : detect_ups i.probe = false) :
    monitor_pld_step s i =
      ({ s with last_ups_detected := false },
       { events :=
           if s.last_ups_detected then [UpsEvent.upsNotDetected] else []
         telemetry := []
         shutdown := none }) := by
  simp [monitor_pld_step, h]

/-- A present cycle on which no trigger fires. -/
theorem monitor_pld_step_present_none (s : PldState) (i : PldInput)
    (h : detect_ups i.probe = true)
    (hc : check_conditions i.pld
        (check_power i.pld s.last_pld s.wait_start i.now).2
        i.now i.voltage i.capacity = none) :
    monitor_pld_step s i =
      ({ last_ups_detected := true
         last_pld := i.pld
         wait_start := (check_power i.pld s.last_pld s.wait_start i.now).2
         count := s.count + 1 },
       { events :=
           (if ¬s.last_ups_detected then [UpsEvent.upsDetected] else []) ++
             (check_power i.pld s.last_pld s.wait_start i.now).1
         telemetry :=
           if s.count % DATA_SEND_PERIOD = 0 then
             log_data i.voltage i.capacity
           else []
         shutdown := none }) := by
  simp [monitor_pld_step, h, hc]

/-- A present cycle on which a trigger fires (terminally). -/
theorem monitor_pld_step_present_some (s : PldState) (i : PldInput)
    (h : detect_ups i.probe = true) (c : ShutdownCause)
    (hc : check_conditions i.pld
        (check_power i.pld s.last_pld s.wait_start i.now).2
        i.now i.voltage i.capacity = some c) :
    monitor_pld_step s i =
      ({ s with last_pld := i.pld
                wait_start :=
                  (check_power i.pld s.last_pld s.wait_start i.now).2 },
       { events :=
           (if ¬s.last_ups_detected then [UpsEvent.upsDetected] else []) ++
             (check_power i.pld s.last_pld s.wait_start i.now).1
         telemetry := []
         shutdown := some c }) := by
  simp [monitor_pld_step, h, hc]

/-- On a cycle without a trigger, `count` advances exactly on present cycles
and telemetry is emitted exactly on present cycles with
`count % DATA_SEND_PERIOD = 0`. -/
theorem monitor_pld_step_none_facts (s : PldState) (i : PldInput)
    (h : (monitor_pld_step s i).2.shutdown = none) :
    (monitor_pld_step s i).1.count =
      s.count + (if detect_ups i.probe then 1 else 0) ∧
    (monitor_pld_step s i).2.telemetry =
      (if detect_ups i.probe = true ∧ s.count % DATA_SEND_PERIOD = 0 then
        log_data i.voltage i.capacity
      else []) := by
  by_cases hd : detect_ups i.probe
  · rcases hcc : check_conditions i.pld
        (check_power i.pld s.last_pld s.wait_start i.now).2
        i.now i.voltage i.capacity with _ | c
    · rw [monitor_pld_step_present_none s i hd hcc]
      simp [hd]
    · rw [monitor_pld_step_present_some s i hd c hcc] at h
      simp at h
  · rw [monitor_pld_step_absent s i (by simpa using hd)]
    simp [hd]

/-- Unfolding a non-terminal cycle of the run. -/
theorem runPld_cons_of_none (s : PldState) (i : PldInput)
    (rest : List PldInput)
    (h : (monitor_pld_step s i).2.shutdown = none) :
    runPld s (i :: rest) =
      (monitor_pld_step s i).2 :: runPld (monitor_pld_step s i).1 rest := by
  simp [runPld, h]

/-- `presentCount` over a cons cell. -/
theorem presentCount_cons (i : PldInput) (l : List PldInput) :
    presentCount (i :: l) =
      presentCount l + (if detect_ups i.probe then 1 else 0) := by
  simp [presentCount, List.countP_cons]

/-- A cycle that fires a trigger emits no telemetry: the terminal
`request_shutdown` call in `check_conditions` is reached before the
telemetry block of `monitor_pld`. -/
theorem monitor_pld_step_some_telemetry (s : PldState) (i : PldInput)
    (h : (monitor_pld_step s i).2.shutdown.isSome = true) :
    (monitor_pld_step s i).2.telemetry = [] := by
  cases hd : detect_ups i.probe
  · rw [monitor_pld_step_absent s i hd] at h
    simp at h
  · rcases hcc : check_conditions i.pld
        (check_power i.pld s.last_pld s.wait_start i.now).2
        i.now i.voltage i.capacity with _ | c
    · rw [monitor_pld_step_present_none s i hd hcc] at h
      simp at h
    · rw [monitor_pld_step_present_some s i hd c hcc]

/-- Telemetry characterization over any run, relative to an arbitrary
starting state: the cycle at position `j` emits telemetry iff it is a
present cycle, its running present-cycle count (starting from `s.count`) is
divisible by `DATA_SEND_PERIOD`, and no terminal trigger fires on it. -/
theorem runPld_telemetry_aux :
    ∀ (inputs : List PldInput) (s : PldState) (j : ℕ) (i : PldInput)
      (o : PldOutput),
      inputs.get? j = some i →
      (runPld s inputs).get? j = some o →
      ((o.telemetry ≠ [] ↔
          detect_ups i.probe = true ∧
            (s.count + presentCount (List.take j inputs)) %
                DATA_SEND_PERIOD = 0 ∧
            o.shutdown = none) ∧
       (o.telemetry ≠ [] → o.telemetry = log_data i.voltage i.capacity)) := by
  intro inputs
  induction inputs with
  | nil => intro s j i o hj _; simp at hj
  | cons i0 rest ih =>
      intro s j i o hj ho
      by_cases hs : (monitor_pld_step s i0).2.shutdown.isSome
      · -- terminal cycle: the run is the singleton of its output
        have hrun : runPld s (i0 :: rest) = [(monitor_pld_step s i0).2] := by
          simp [runPld, hs]
        rw [hrun] at ho
        cases j with
        | zero =>
            rw [List.get?_cons_zero] at ho
            have hoo : o = (monitor_pld_step s i0).2 := by
              injection ho with h; exact h.symm
            subst hoo
            rw [monitor_pld_step_some_telemetry s i0 hs]
            refine ⟨⟨fun hne => absurd rfl hne, fun hrhs => ?_⟩,
              fun hne => absurd rfl hne⟩
            rw [hrhs.2.2] at hs
            simp at hs
        | succ k =>
            rw [List.get?_cons_succ] at ho
            simp at ho
      · have h0 : (monitor_pld_step s i0).2.shutdown = none :=
          Option.not_isSome_iff_eq_none.mp hs
        have hrun := runPld_cons_of_none s i0 rest h0
        rcases monitor_pld_step_none_facts s i0 h0 with ⟨hcount, htel⟩
        cases j with
        | zero =>
            rw [List.get?_cons_zero] at hj
            rw [hrun, List.get?_cons_zero] at ho
            have hi : i = i0 := by injection hj with h; exact h.symm
            have hoo : o = (monitor_pld_step s i0).2 := by
              injection ho with h; exact h.symm
            subst hi; subst hoo
            rw [htel]
            split_ifs with hcond
            · refine ⟨⟨fun _ => ⟨hcond.1, ?_, h0⟩, fun _ => by simp [log_data]⟩,
                fun _ => rfl⟩
              simpa [presentCount] using hcond.2
            · refine ⟨⟨fun hne => absurd rfl hne, fun hrhs => ?_⟩,
                fun hne => absurd rfl hne⟩
              exact absurd ⟨hrhs.1, by simpa [presentCount] using hrhs.2.1⟩
                hcond
        | succ k =>
            rw [List.get?_cons_succ] at hj
            rw [hrun, List.get?_cons_succ] at ho
            have := ih (monitor_pld_step s i0).1 k i o hj ho
            have hpc : (monitor_pld_step s i0).1.count +
                presentCount (List.take k rest) =
                s.count + presentCount (List.take (k + 1) (i0 :: rest)) := by
              rw [hcount, List.take_succ_cons, presentCount_cons]
              ring
            rwa [hpc] at this

/-- C6 (amended): across every run of the power supervisor, the cycle at
position `j` emits battery telemetry iff it is a UPS-present cycle, the
number of present cycles before it is an exact multiple of
`DATA_SEND_PERIOD` (60), and no terminal shutdown trigger fires on that
cycle (the trigger's non-returning `request_shutdown` preempts the
telemetry block); when telemetry is emitted it is exactly the pair of
separate events `voltage` then `capacity`. -/
theorem telemetry_cadence (inputs : List PldInput) (j : ℕ) (i : PldInput)
    (o : PldOutput)
    (hj : inputs.get? j = some i)
    (ho : (runPld initialPldState inputs).get? j = some o) :
    (o.telemetry ≠ [] ↔
      detect_ups i.probe = true ∧
        presentCount (List.take j inputs) % DATA_SEND_PERIOD = 0 ∧
        o.shutdown = none) ∧
    (o.telemetry ≠ [] → o.telemetry = log_data i.voltage i.capacity) := by
  have := runPld_telemetry_aux inputs initialPldState j i o hj ho
  simpa [initialPldState] using this

/-- C6 witness: a single present cycle with healthy readings (present-cycle
count 0, a multiple of 60, no trigger) emits exactly the voltage/capacity
pair. -/
theorem telemetry_cadence_witness :
    ({ events := [UpsEvent.upsDetected], telemetry := log_data 4 100,
       shutdown := none } : PldOutput).telemetry ≠ [] ∧
    ({ events := [UpsEvent.upsDetected], telemetry := log_data 4 100,
       shutdown := none } : PldOutput).telemetry = log_data 4 100 := by
  have hrun : runPld initialPldState
      [{ probe := some (), pld := false, voltage := 4, capacity := 100,
         now := 1000 }] =
      [{ events := [UpsEvent.upsDetected]
         telemetry := log_data 4 100
         shutdown := none }] := by
    norm_num [runPld, monitor_pld_step, check_power, check_conditions,
      detect_ups, log_data, initialPldState, DATA_SEND_PERIOD,
      SHUTDOWN_SECONDS, SHUTDOWN_BATTERY_VOLTAGE, SHUTDOWN_BATTERY_CAPACITY]
  have h := telemetry_cadence
      [{ probe := some (), pld := false, voltage := 4, capacity := 100,
         now := 1000 }] 0
      { probe := some (), pld := false, voltage := 4, capacity := 100,
        now := 1000 }
      { events := [UpsEvent.upsDetected], telemetry := log_data 4 100,
        shutdown := none }
      rfl
      (by rw [hrun]; rfl)
  have hne := h.1.mpr ⟨rfl, by simp [presentCount], rfl⟩
  exact ⟨hne, h.2 hne⟩

/-- C6 counterexample: the very first cycle is UPS-present with
present-cycle count 0 — an exact multiple of 60 — but its battery voltage
of 3 V fires the terminal low-voltage trigger in `check_conditions`
*before* the telemetry block is reached, so no telemetry is emitted on
that cycle, contradicting "emitted as a pair of separate events exactly on
those UPS-present cycles whose cycle count is an exact multiple of the
configured period (60)". -/
theorem telemetry_cadence_cex :
    (runPld initialPldState
        [{ probe := some (), pld := false, voltage := 3, capacity := 100,
           now := 1000 }]).map PldOutput.telemetry = [[]] ∧
    detect_ups (some ()) = true ∧
    presentCount (List.take 0
        [{ probe := some (), pld := false, voltage := 3, capacity := 100,
           now := 1000 }]) % DATA_SEND_PERIOD = 0 := by
  refine ⟨?_, rfl, by simp [presentCount]⟩
  norm_num [runPld, monitor_pld_step, check_power, check_conditions,
    detect_ups, initialPldState, SHUTDOWN_SECONDS,
    SHUTDOWN_BATTERY_VOLTAGE, SHUTDOWN_BATTERY_CAPACITY]

/-! ### C7 — publisher-loop reconnect cadence -/

set_option maxRecDepth 4000 in
/-- Any window of `MQTT_RETRY_PERIOD` consecutive counter values contains
exactly one value on which `main` calls `attempt_mqtt_reconnect`. -/
theorem countP_reconnect_window :
    ∀ s : ℕ, (List.range' s MQTT_RETRY_PERIOD).countP
      (fun k => reconnect_due k) = 1 := by
  intro s
  induction s with
  | zero => decide
  | succ n ih =>
      have hsucc : List.range' n (MQTT_RETRY_PERIOD + 1) =
          n :: List.range' (n + 1) MQTT_RETRY_PERIOD :=
        List.range'_succ n MQTT_RETRY_PERIOD 1
      have hconcat : List.range' n (MQTT_RETRY_PERIOD + 1) =
          List.range' n MQTT_RETRY_PERIOD ++ [n + MQTT_RETRY_PERIOD] :=
        List.range'_1_concat n MQTT_RETRY_PERIOD
      have hdue : reconnect_due (n + MQTT_RETRY_PERIOD) = reconnect_due n := by
        simp [reconnect_due, Nat.add_mod_right]
      have h1 : List.countP (fun k => reconnect_due k)
          (n :: List.range' (n + 1) MQTT_RETRY_PERIOD) =
          List.countP (fun k => reconnect_due k)
            (List.range' n MQTT_RETRY_PERIOD ++ [n + MQTT_RETRY_PERIOD]) := by
        rw [← hsucc, hconcat]
      rw [List.countP_cons, List.countP_append, List.countP_cons,
        List.countP_nil, hdue] at h1
      by_cases hn : reconnect_due n <;> simp [hn] at h1 <;> omega

/-- C7: (a) an iteration of the publisher loop invokes `client.reconnect()`
only when the connection flag is Disconnected; (b) any window of
`MQTT_RETRY_PERIOD` (600) consecutive iterations contains at most one
reconnect invocation; and (c) if the flag is Disconnected throughout such a
window, it contains exactly one reconnect invocation. -/
theorem reconnect_cadence (conn : ℕ → Bool) (s : ℕ) :
    (∀ k : ℕ, reconnect_attempted k (conn k) = true → conn k = false) ∧
    (List.range' s MQTT_RETRY_PERIOD).countP
        (fun k => reconnect_attempted k (conn k)) ≤ 1 ∧
    ((∀ k ∈ List.range' s MQTT_RETRY_PERIOD, conn k = false) →
      (List.range' s MQTT_RETRY_PERIOD).countP
        (fun k => reconnect_attempted k (conn k)) = 1) := by
  refine ⟨?_, ?_, ?_⟩
  · intro k h
    cases hc : conn k
    · rfl
    · rw [reconnect_attempted, hc] at h
      simp [attempt_mqtt_reconnect] at h
  · calc (List.range' s MQTT_RETRY_PERIOD).countP
          (fun k => reconnect_attempted k (conn k))
        ≤ (List.range' s MQTT_RETRY_PERIOD).countP
          (fun k => reconnect_due k) := by
          apply List.countP_mono_left
          intro k _ hk
          rw [reconnect_attempted] at hk
          exact (Bool.and_eq_true _ _).mp hk |>.1
      _ = 1 := countP_reconnect_window s
  · intro hall
    have hcong : ∀ k ∈ List.range' s MQTT_RETRY_PERIOD,
        reconnect_attempted k (conn k) = true ↔ reconnect_due k = true := by
      intro k hk
      rw [reconnect_attempted, hall k hk]
      simp [attempt_mqtt_reconnect]
    rw [List.countP_congr hcong]
    exact countP_reconnect_window s

set_option maxRecDepth 4000 in
/-- C7 witness: with the flag Disconnected throughout, the window of
counter values 1..600 contains exactly one reconnect attempt, and a sample
attempted iteration indeed had the flag Disconnected. -/
theorem reconnect_cadence_witness :
    (List.range' 1 MQTT_RETRY_PERIOD).countP
        (fun k => reconnect_attempted k false) = 1 ∧
    false = false :=
  ⟨(reconnect_cadence (fun _ => false) 1).2.2 (fun _ _ => rfl),
   (reconnect_cadence (fun _ => false) 1).1 599 (by decide)⟩

/-! ### C8 — the MQTT connection flag -/

/-- C8: the `connected` flag starts Disconnected; from Disconnected it can
become Connected only through a connect acknowledgement with result code 0;
a connect acknowledgement with nonzero result code leaves it unchanged; any
disconnect acknowledgement makes it Disconnected; `client.reconnect()` is
invoked only while Disconnected, and a failed reconnect attempt does not
write the flag, leaving it Disconnected.  The only writers are the two
acknowledgement handlers `on_connect`/`on_disconnect`. -/
theorem connection_flag (c : Bool) (rc : ℕ) (e : ConnEvent) :
    initial_connected = false ∧
    (applyConnEvent false e = true → e = ConnEvent.connectAck 0) ∧
    applyConnEvent c (ConnEvent.connectAck 0) = true ∧
    (rc ≠ 0 → applyConnEvent c (ConnEvent.connectAck rc) = c) ∧
    applyConnEvent c (ConnEvent.disconnectAck rc) = false ∧
    (attempt_mqtt_reconnect c = true → c = false) ∧
    (attempt_mqtt_reconnect c = true →
      flag_after_failed_reconnect c = false) := by
  refine ⟨rfl, ?_, ?_, ?_, rfl, ?_, ?_⟩
  · intro h
    cases e with
    | connectAck rc0 =>
        by_cases h0 : rc0 = 0
        · rw [h0]
        · simp [applyConnEvent, on_connect, h0] at h
    | disconnectAck rc0 => simp [applyConnEvent, on_disconnect] at h
  · simp [applyConnEvent, on_connect]
  · intro h0
    simp [applyConnEvent, on_connect, h0]
  · intro h
    cases hc : c
    · rfl
    · rw [hc] at h; simp [attempt_mqtt_reconnect] at h
  · intro h
    cases hc : c
    · rfl
    · rw [hc] at h; simp [attempt_mqtt_reconnect] at h

/-- C8 witness: a failed connect acknowledgement (result code 5) leaves the
flag Disconnected, and a disconnect acknowledgement clears it. -/
theorem connection_flag_witness :
    applyConnEvent false (ConnEvent.connectAck 5) = false ∧
    applyConnEvent true (ConnEvent.disconnectAck 0) = false :=
  ⟨(connection_flag false 5 (ConnEvent.connectAck 5)).2.2.2.1 (by decide),
   (connection_flag true 0 (ConnEvent.disconnectAck 0)).2.2.2.2.1⟩

/-! ### C9 — probe failure and presence transitions -/

/-- The events a cycle emits, by presence. -/
theorem monitor_pld_step_events (s : PldState) (i : PldInput) :
    (monitor_pld_step s i).2.events =
      (if detect_ups i.probe then
        (if ¬s.last_ups_detected then [UpsEvent.upsDetected] else []) ++
          (check_power i.pld s.last_pld s.wait_start i.now).1
      else if s.last_ups_detected then [UpsEvent.upsNotDetected] else []) := by
  cases hd : detect_ups i.probe
  · rw [monitor_pld_step_absent s i hd]; simp
  · rcases hcc : check_conditions i.pld
        (check_power i.pld s.last_pld s.wait_start i.now).2
        i.now i.voltage i.capacity with _ | c
    · rw [monitor_pld_step_present_none s i hd hcc]; simp
    · rw [monitor_pld_step_present_some s i hd c hcc]; simp

/-- "UPS detected" is emitted exactly on down→up transitions. -/
theorem monitor_pld_step_count_upsDetected (s : PldState) (i : PldInput) :
    (monitor_pld_step s i).2.events.count UpsEvent.upsDetected =
      (if detect_ups i.probe = true ∧ s.last_ups_detected = false then 1
       else 0) := by
  rw [monitor_pld_step_events]
  cases hd : detect_ups i.probe <;>
    cases hb : s.last_ups_detected <;>
      cases hp : i.pld <;>
        cases hq : s.last_pld <;>
          simp [check_power, List.count_cons, List.count_nil,
            List.count_append]

/-- "UPS not detected" is emitted exactly on up→down transitions. -/
theorem monitor_pld_step_count_upsNotDetected (s : PldState) (i : PldInput) :
    (monitor_pld_step s i).2.events.count UpsEvent.upsNotDetected =
      (if detect_ups i.probe = false ∧ s.last_ups_detected = true then 1
       else 0) := by
  rw [monitor_pld_step_events]
  cases hd : detect_ups i.probe <;>
    cases hb : s.last_ups_detected <;>
      cases hp : i.pld <;>
        cases hq : s.last_pld <;>
          simp [check_power, List.count_cons, List.count_nil,
            List.count_append]

/-- C9: (a) a failing device probe is classified as "device not present"
(`detect_ups` returns `false` instead of propagating the exception, so the
supervisor loop continues); (b) the presence-transition events "UPS
detected" / "UPS not detected" are each emitted exactly once per down→up
resp. up→down transition and never on steady cycles; (c) on an absent cycle
all remaining supervisor steps are skipped: no power event, no telemetry,
no trigger, and `last_pld`, `wait_start` and `count` are untouched. -/
theorem presence_handling (s : PldState) (i : PldInput) :
    (detect_ups none = false ∧ detect_ups (some ()) = true) ∧
    ((monitor_pld_step s i).2.events.count UpsEvent.upsDetected =
      (if detect_ups i.probe = true ∧ s.last_ups_detected = false then 1
       else 0)) ∧
    ((monitor_pld_step s i).2.events.count UpsEvent.upsNotDetected =
      (if detect_ups i.probe = false ∧ s.last_ups_detected = true then 1
       else 0)) ∧
    (detect_ups i.probe = false →
      monitor_pld_step s i =
        ({ s with last_ups_detected := false },
         { events :=
             if s.last_ups_detected then [UpsEvent.upsNotDetected] else []
           telemetry := []
           shutdown := none })) :=
  ⟨⟨rfl, rfl⟩, monitor_pld_step_count_upsDetected s i,
   monitor_pld_step_count_upsNotDetected s i, monitor_pld_step_absent s i⟩

/-- C9 witness: a cycle whose probe raised, in the initial state, emits
nothing, touches nothing but the presence flag, and does not shut down. -/
theorem presence_handling_witness :
    monitor_pld_step initialPldState
        { probe := none, pld := false, voltage := 4, capacity := 100,
          now := 0 } =
      ({ initialPldState with last_ups_detected := false },
       { events := [], telemetry := [], shutdown := none }) := by
  have h := (presence_handling initialPldState
      { probe := none, pld := false, voltage := 4, capacity := 100,
        now := 0 }).2.2.2 rfl
  simpa [initialPldState] using h

/-! ### C10 — the float-max watermark sentinel -/

/-- If the watermark still holds its `sys.float_info.max` sentinel and power
loss is active on every present cycle, the watermark never changes and the
outage trigger can never fire, because every wall-clock reading is a finite
double and hence at most `FLOAT_MAX`. -/
theorem runPld_no_outage_aux :
    ∀ (inputs : List PldInput) (s : PldState),
      s.wait_start = FLOAT_MAX →
      (∀ i ∈ inputs, detect_ups i.probe = true → i.pld = true) →
      (∀ i ∈ inputs, i.now ≤ FLOAT_MAX) →
      ∀ o ∈ runPld s inputs, o.shutdown ≠ some ShutdownCause.outage := by
  intro inputs
  induction inputs with
  | nil => intro s _ _ _ o ho; simp [runPld] at ho
  | cons i0 rest ih =>
      intro s hws hpld hnow o ho
      cases hd : detect_ups i0.probe
      · rw [runPld_cons_of_none s i0 rest
            (by rw [monitor_pld_step_absent s i0 hd])] at ho
        rcases List.mem_cons.mp ho with rfl | htail
        · rw [monitor_pld_step_absent s i0 hd]
          simp
        · refine ih _ ?_ ?_ ?_ o htail
          · rw [monitor_pld_step_absent s i0 hd]
            simpa using hws
          · exact fun i hi => hpld i (List.mem_cons_of_mem _ hi)
          · exact fun i hi => hnow i (List.mem_cons_of_mem _ hi)
      · have hpld0 : i0.pld = true := hpld i0 (List.mem_cons_self i0 rest) hd
        have hnow0 : i0.now ≤ FLOAT_MAX := hnow i0 (List.mem_cons_self i0 rest)
        have hcpw : (check_power i0.pld s.last_pld s.wait_start i0.now).2 =
            FLOAT_MAX := by
          rw [hpld0]
          simpa [check_power] using hws
        have h20 : (0 : ℚ) < SHUTDOWN_SECONDS := by
          norm_num [SHUTDOWN_SECONDS]
        have hnotout :
            check_conditions i0.pld
              (check_power i0.pld s.last_pld s.wait_start i0.now).2
              i0.now i0.voltage i0.capacity ≠ some ShutdownCause.outage := by
          intro hEq
          rw [check_conditions_eq_outage_iff] at hEq
          rcases hEq with ⟨-, hgt⟩
          rw [hcpw] at hgt
          linarith
        rcases hcc : check_conditions i0.pld
            (check_power i0.pld s.last_pld s.wait_start i0.now).2
            i0.now i0.voltage i0.capacity with _ | c
        · rw [runPld_cons_of_none s i0 rest
              (by rw [monitor_pld_step_present_none s i0 hd hcc])] at ho
          rcases List.mem_cons.mp ho with rfl | htail
          · rw [monitor_pld_step_present_none s i0 hd hcc]
            simp
          · refine ih _ ?_ ?_ ?_ o htail
            · rw [monitor_pld_step_present_none s i0 hd hcc]
              simpa using hcpw
            · exact fun i hi => hpld i (List.mem_cons_of_mem _ hi)
            · exact fun i hi => hnow i (List.mem_cons_of_mem _ hi)
        · have hstep := monitor_pld_step_present_some s i0 hd c hcc
          have hrun : runPld s (i0 :: rest) =
              [(monitor_pld_step s i0).2] := by
            simp [runPld, hstep]
          rw [hrun] at ho
          rcases List.mem_singleton.mp ho with rfl
          rw [hstep]
          intro hbad
          have hbad' : some c = some ShutdownCause.outage := by
            simpa using hbad
          exact hnotout (hcc.trans hbad')

/-- C10: in every run in which power-loss is active on every UPS-present
cycle from process start (good power is never observed) and every
wall-clock reading is a finite double (`≤ FLOAT_MAX`), no cycle ever fires
the outage-duration trigger, however many cycles elapse; any shutdown that
does occur is caused by the low-voltage or low-capacity trigger. -/
theorem no_outage_without_good_power (inputs : List PldInput)
    (hpld : ∀ i ∈ inputs, detect_ups i.probe = true → i.pld = true)
    (hnow : ∀ i ∈ inputs, i.now ≤ FLOAT_MAX) :
    ∀ o ∈ runPld initialPldState inputs,
      o.shutdown ≠ some ShutdownCause.outage ∧
      (∀ c, o.shutdown = some c →
        c = ShutdownCause.lowVoltage ∨ c = ShutdownCause.lowCapacity) := by
  intro o ho
  have h1 := runPld_no_outage_aux inputs initialPldState rfl hpld hnow o ho
  refine ⟨h1, ?_⟩
  intro c hc
  cases c with
  | outage => exact absurd hc h1
  | lowVoltage => exact Or.inl rfl
  | lowCapacity => exact Or.inr rfl

/-- C10 witness: a run that starts with power loss already active and a
low battery (3 V) shuts down by the low-voltage trigger, not the outage
trigger. -/
theorem no_outage_without_good_power_witness :
    ({ events := [UpsEvent.upsDetected, UpsEvent.powerLoss], telemetry := [],
       shutdown := some ShutdownCause.lowVoltage } : PldOutput).shutdown ≠
      some ShutdownCause.outage := by
  have hrun : runPld initialPldState
      [{ probe := some (), pld := true, voltage := 3, capacity := 100,
         now := 1000 }] =
      [{ events := [UpsEvent.upsDetected, UpsEvent.powerLoss]
         telemetry := []
         shutdown := some ShutdownCause.lowVoltage }] := by
    norm_num [runPld, monitor_pld_step, check_power, check_conditions,
      detect_ups, initialPldState, FLOAT_MAX, SHUTDOWN_SECONDS,
      SHUTDOWN_BATTERY_VOLTAGE, SHUTDOWN_BATTERY_CAPACITY]
  exact (no_outage_without_good_power
      [{ probe := some (), pld := true, voltage := 3, capacity := 100,
         now := 1000 }]
      (by intro i hi _
          rw [List.mem_singleton] at hi
          subst hi; rfl)
      (by intro i hi
          rw [List.mem_singleton] at hi
          subst hi
          show (1000 : ℚ) ≤ FLOAT_MAX
          norm_num [FLOAT_MAX])
      _ (by rw [hrun]; exact List.mem_singleton.mpr rfl)).1

end X728Ups
